import Mathlib

/-!
Shallow embedding of the SoilVision ML pipeline
(`src/SoilVision/ML_Model/train_model.py` and
`src/SoilVision/ML_Model/convert_to_coreml.py`) together with theorems
checking the specification's claims against it.
-/

namespace SoilVision

/-! ## Module-level constants (train_model.py lines 37-41) -/

/-- Soil types for classification, in the declared order. -/
def SOIL_TYPES : List String := ["clay", "loam", "sandy", "silt", "peat", "chalk"]

/-- Number of classes. -/
def NUM_CLASSES : Nat := SOIL_TYPES.length

/-- Input image resolution. -/
def IMG_SIZE : Nat × Nat := (224, 224)

/-- Default batch size. -/
def BATCH_SIZE : Nat := 32

/-- Default epoch budget. -/
def EPOCHS : Nat := 50

/-! ## Dataset validator (train_model.py lines 62-87) -/

/-- Recognized image extensions (train_model.py line 76). -/
def imageExtensions : List String := [".jpg", ".jpeg", ".png", ".bmp"]

/-- Case-insensitive extension check, as in
`f.lower().endswith((".jpg", ".jpeg", ".png", ".bmp"))`. -/
def isImageFile (f : String) : Bool :=
  imageExtensions.any (fun e => f.toLower.endsWith e)

/-- Abstraction of the dataset directory tree seen by the trainer: the root
path, whether the root exists, the names of the category subdirectories that
exist under it, and the file names inside each subdirectory. -/
structure Dataset where
  dir : String
  rootExists : Bool
  subdirs : List String
  files : String → List String

/-- The two failure modes of `validate_dataset`: `FileNotFoundError` for a
missing root (the spec's `DatasetNotFound`) and `ValueError` naming the
missing class directories (the spec's `MissingCategories`). -/
inductive ValidateError where
  | DatasetNotFound (dir : String)
  | MissingCategories (missing : List String)
deriving DecidableEq

/-- Per-class image counts printed for the classes whose directory exists
(train_model.py lines 72-78). -/
def validationReport (d : Dataset) : List (String × Nat) :=
  (SOIL_TYPES.filter (fun t => d.subdirs.contains t)).map
    (fun t => (t, ((d.files t).filter isImageFile).length))

/-- `required_classes - found_classes` (train_model.py line 82): the soil
types whose subdirectory is absent. -/
def missingCategories (d : Dataset) : List String :=
  SOIL_TYPES.filter (fun t => !(d.subdirs.contains t))

/-- train_model.py lines 62-87: raise if the root is missing, otherwise
collect per-class counts, raise naming the missing classes if any, and
return True. -/
def validate_dataset (d : Dataset) : Except ValidateError (List (String × Nat) × Bool) :=
  if d.rootExists = false then
    Except.error (ValidateError.DatasetNotFound d.dir)
  else if (missingCategories d).isEmpty then
    Except.ok (validationReport d, true)
  else
    Except.error (ValidateError.MissingCategories (missingCategories d))

/-- A dataset whose root exists and which has every category subdirectory but
contains no image files at all. -/
def emptyImageDataset : Dataset :=
  { dir := "./dataset", rootExists := true, subdirs := SOIL_TYPES, files := fun _ => [] }

/-- A dataset whose root exists but whose `peat` subdirectory is absent. -/
def sampleMissingPeat : Dataset :=
  { dir := "./dataset", rootExists := true,
    subdirs := ["clay", "loam", "sandy", "silt", "chalk"], files := fun _ => [] }

/-! ## Helper lemmas for the validator -/

theorem mem_missingCategories (d : Dataset) (t : String) :
    t ∈ missingCategories d ↔ (t ∈ SOIL_TYPES ∧ d.subdirs.contains t = false) := by
  simp [missingCategories, List.mem_filter]

theorem validate_root_missing (d : Dataset) (h : d.rootExists = false) :
    validate_dataset d = Except.error (ValidateError.DatasetNotFound d.dir) := by
  simp [validate_dataset, h]

theorem validate_missing_eq (d : Dataset) (missing : List String)
    (h : validate_dataset d = Except.error (ValidateError.MissingCategories missing)) :
    missing = missingCategories d := by
  unfold validate_dataset at h
  by_cases hr : d.rootExists = false
  · simp [hr] at h
  · by_cases he : (missingCategories d).isEmpty
    · simp [hr, he] at h
    · simp [hr, he] at h
      exact h.symm

theorem validate_fails_of_missing (d : Dataset) (h1 : d.rootExists = true)
    (t : String) (ht : t ∈ SOIL_TYPES) (hc : d.subdirs.contains t = false) :
    validate_dataset d = Except.error (ValidateError.MissingCategories (missingCategories d)) := by
  have hmem : t ∈ missingCategories d := (mem_missingCategories d t).mpr ⟨ht, hc⟩
  have hne : missingCategories d ≠ [] := List.ne_nil_of_mem hmem
  have hie : (missingCategories d).isEmpty = false := by
    cases hmc : missingCategories d with
    | nil => exact absurd hmc hne
    | cons a l => simp
  simp [validate_dataset, h1, hie]

theorem validate_ok_of_complete (d : Dataset) (h1 : d.rootExists = true)
    (h2 : ∀ t, t ∈ SOIL_TYPES → d.subdirs.contains t = true) :
    validate_dataset d = Except.ok (validationReport d, true) := by
  have hmc : missingCategories d = [] := by
    apply List.eq_nil_iff_forall_not_mem.mpr
    intro t hmem
    have := (mem_missingCategories d t).mp hmem
    rw [h2 t this.1] at this
    exact Bool.noConfusion this.2
  simp [validate_dataset, h1, hmc]

/-! ## Augmented data pipeline (train_model.py lines 89-140)

The trainer builds two Keras `ImageDataGenerator` objects and calls
`flow_from_directory` on each. Two facts about the external Keras API decide
the claims here and are modelled from its documented behavior:
the constructor's accepted keyword parameters (an unexpected keyword raises
`TypeError`), and class-index resolution in `flow_from_directory`
(subdirectory names sorted alphabetically). -/

/-- Keyword parameters accepted by the external
`tf.keras.preprocessing.image.ImageDataGenerator` constructor, per its
documented signature. -/
def imageDataGeneratorParams : List String :=
  ["featurewise_center", "samplewise_center", "featurewise_std_normalization",
   "samplewise_std_normalization", "zca_whitening", "zca_epsilon",
   "rotation_range", "width_shift_range", "height_shift_range",
   "brightness_range", "shear_range", "zoom_range", "channel_shift_range",
   "fill_mode", "cval", "horizontal_flip", "vertical_flip", "rescale",
   "preprocessing_function", "data_format", "validation_split",
   "interpolation_order", "dtype"]

/-- Keyword arguments passed to `ImageDataGenerator` for the training stream
(train_model.py lines 94-107), in source order. -/
def train_datagen_args : List String :=
  ["rescale", "rotation_range", "width_shift_range", "height_shift_range",
   "shear_range", "zoom_range", "horizontal_flip", "vertical_flip",
   "brightness_range", "contrast_range", "fill_mode", "validation_split"]

/-- Keyword arguments passed to `ImageDataGenerator` for the validation stream
(train_model.py lines 110-113). -/
def val_datagen_args : List String := ["rescale", "validation_split"]

/-- Errors Python can raise inside `create_data_generators`: a `TypeError` for
an unexpected keyword argument, and the spec's `LabelOrderMismatch` (which
the source never raises; it is included so its absence can be stated). -/
inductive PyError where
  | typeError (arg : String)
  | labelOrderMismatch (detail : String)
deriving DecidableEq

/-- Python keyword-argument checking for the `ImageDataGenerator` constructor:
the first keyword not in the documented parameter list raises `TypeError`. -/
def mkImageDataGenerator (args : List String) : Except PyError Unit :=
  match args.find? (fun a => !(imageDataGeneratorParams.contains a)) with
  | some a => Except.error (PyError.typeError a)
  | none => Except.ok ()

/-- Lexicographic comparison of character lists, mirroring Python's `sorted`
on strings (code-point order). -/
def charListLe : List Char → List Char → Bool
  | [], _ => true
  | _ :: _, [] => false
  | a :: as, b :: bs => if a = b then charListLe as bs else decide (a < b)

/-- String order used by `sorted`. -/
def strLe (a b : String) : Prop := charListLe a.toList b.toList = true

instance : DecidableRel strLe := fun a b => by unfold strLe; infer_instance

/-- `flow_from_directory` resolves the index-to-label mapping by sorting the
class subdirectory names alphabetically (Keras documented behavior). -/
def resolvedClassOrder (classes : List String) : List String :=
  List.insertionSort strLe classes

/-- Fraction of a class's files assigned to the validation subset. -/
def splitCount (split : ℚ) (n : Nat) : Nat := (⌊split * (n : ℚ)⌋).toNat

/-- Per-sample class indices in catalog order: class `i` contributes
`counts[i]` samples. -/
def catalogClasses (counts : List Nat) : List Nat :=
  (((List.range counts.length).zip counts).map
    (fun p => List.replicate p.2 p.1)).flatten

/-- The observable state of one `flow_from_directory` generator: its sample
count, its resolved index-to-label mapping, and the per-sample true class
indices in catalog order. -/
structure FlowGenerator where
  samples : Nat
  class_indices : List String
  classes : List Nat
deriving DecidableEq

/-- train_model.py lines 89-140. Python evaluates the training
`ImageDataGenerator(...)` call first; its keyword arguments are checked
before any generator exists, and an unexpected keyword aborts the method.
If both constructors were accepted, each `flow_from_directory` call would
resolve the class order alphabetically and split every class's files between
the two subsets; no comparison against `SOIL_TYPES` is ever made. -/
def create_data_generators (d : Dataset) (validation_split : ℚ) :
    Except PyError (FlowGenerator × FlowGenerator) := do
  let _train_datagen ← mkImageDataGenerator train_datagen_args
  let _val_datagen ← mkImageDataGenerator val_datagen_args
  let order := resolvedClassOrder d.subdirs
  let counts := order.map (fun c => ((d.files c).filter isImageFile).length)
  let valCounts := counts.map (fun n => splitCount validation_split n)
  let trainCounts := (counts.zip valCounts).map (fun p => p.1 - p.2)
  Except.ok
    ({ samples := trainCounts.foldl (fun a n => a + n) 0
       class_indices := order
       classes := catalogClasses trainCounts },
     { samples := valCounts.foldl (fun a n => a + n) 0
       class_indices := order
       classes := catalogClasses valCounts })

/-- Does a pipeline result consist of the spec's `LabelOrderMismatch` failure? -/
def isLabelOrderMismatchResult (r : Except PyError (FlowGenerator × FlowGenerator)) : Bool :=
  match r with
  | Except.error (PyError.labelOrderMismatch _) => true
  | _ => false

/-! ## Training orchestrator step counts (train_model.py lines 242-247) -/

/-- `steps_per_epoch` and `validation_steps` as computed at the start of
`train_model`: `max(1, samples // batch_size)` for each stream. -/
def train_model_steps (trainGen valGen : FlowGenerator) (batch : Nat) : Nat × Nat :=
  (max 1 (trainGen.samples / batch), max 1 (valGen.samples / batch))

/-! ## Evaluator (train_model.py lines 263-290)

`predict` is run for `max(1, samples // batch_size)` steps, which yields
`min(samples, steps * batch_size)` predictions (each drawn batch is full,
except that a single step over fewer than `batch_size` samples yields them
all). `true_classes` is the generator's class array truncated to the
prediction count, `confusion_matrix` counts (true, predicted) pairs, and the
reported accuracy is the mean of exact matches over the evaluated samples. -/

/-- Validation steps used by `evaluate_model`. -/
def evalSteps (batch n : Nat) : Nat := max 1 (n / batch)

/-- Arg-max predictions actually collected by `model.predict`:
`predAll` holds the model's per-sample predicted class for the whole
validation stream in catalog order, of which the first
`steps * batch` are drawn. -/
def evalPreds (batch : Nat) (valClasses predAll : List Nat) : List Nat :=
  predAll.take (evalSteps batch valClasses.length * batch)

/-- `true_classes = validation_generator.classes[:len(predicted_classes)]`. -/
def evalTrues (batch : Nat) (valClasses predAll : List Nat) : List Nat :=
  valClasses.take (evalPreds batch valClasses predAll).length

/-- The evaluated (true, predicted) sample pairs. -/
def evalPairs (batch : Nat) (valClasses predAll : List Nat) : List (Nat × Nat) :=
  (evalTrues batch valClasses predAll).zip (evalPreds batch valClasses predAll)

/-- Result of `evaluate_model`: the evaluated samples, the accuracy scalar,
and the confusion matrix as a counting function (row = true label,
column = predicted label), following sklearn's `confusion_matrix`. -/
structure EvalOutcome where
  evaluatedTrue : List Nat
  evaluatedPred : List Nat
  accuracy : ℚ
  cm : Nat → Nat → Nat

/-- train_model.py lines 263-290 over the validation stream's true classes
and the model's per-sample predictions. -/
def evaluate_model (batch : Nat) (valClasses predAll : List Nat) : EvalOutcome :=
  { evaluatedTrue := evalTrues batch valClasses predAll
    evaluatedPred := evalPreds batch valClasses predAll
    accuracy :=
      (((evalPairs batch valClasses predAll).countP (fun p => p.1 == p.2) : ℚ)) /
        (((evalTrues batch valClasses predAll).length : ℚ))
    cm := fun i j =>
      (evalPairs batch valClasses predAll).countP (fun p => p.1 == i && p.2 == j) }

/-- Sum of one confusion-matrix row over the class columns. -/
def rowSum (cm : Nat → Nat → Nat) (i : Nat) : Nat :=
  ∑ j in Finset.range NUM_CLASSES, cm i j

/-- Trace of the confusion matrix. -/
def cmTrace (cm : Nat → Nat → Nat) : Nat :=
  ∑ i in Finset.range NUM_CLASSES, cm i i

/-- Sum of all confusion-matrix entries. -/
def cmTotal (cm : Nat → Nat → Nat) : Nat :=
  ∑ i in Finset.range NUM_CLASSES, rowSum cm i

/-- A validation stream of 33 samples: 32 of class 0 followed by one of
class 1 (catalog order), with the default batch size 32. -/
def truncTrue : List Nat := List.replicate 32 0 ++ [1]

/-- Model predictions for `truncTrue`: always class 0. -/
def truncPred : List Nat := List.replicate 33 0

/-! ## Artifact persister (train_model.py lines 345-375) -/

/-- File name of the persisted model. -/
def modelFileName : String := "soil_classifier_model.h5"

/-- File name of the metadata record. -/
def metadataFileName : String := "model_metadata.json"

/-- File name of the converted bundle written by the trainer. -/
def coremlFileName : String := "SoilClassifier.mlmodel"

/-- Filesystem operations performed by the persister, at the granularity
visible to a concurrent reader of the final path. -/
inductive FSOp where
  | writeModel (path : String)
  | openTrunc (path : String)
  | writeChunk (path : String) (data : String)
  | closeFile (path : String)
  | renameFile (src dst : String)
deriving DecidableEq

/-- train_model.py lines 345-375 as the sequence of filesystem operations it
performs: `model.save` writes the model file, then the metadata is written by
`open(metadata_path, "w")` — which truncates the file at its final path —
followed by `json.dump` of the serialized record into it. -/
def save_model_and_metadata_trace (outdir : String) (metadataContent : String) : List FSOp :=
  [FSOp.writeModel (outdir ++ "/" ++ modelFileName),
   FSOp.openTrunc (outdir ++ "/" ++ metadataFileName),
   FSOp.writeChunk (outdir ++ "/" ++ metadataFileName) metadataContent,
   FSOp.closeFile (outdir ++ "/" ++ metadataFileName)]

/-- The claim's atomicity discipline: the content at `final` is produced by a
rename into `final`, and `final` itself is never opened for truncating write
or written directly. -/
def producedByRename (trace : List FSOp) (final : String) : Bool :=
  (trace.any fun op => match op with
    | FSOp.renameFile _ dst => dst == final
    | _ => false) &&
  (trace.all fun op => match op with
    | FSOp.openTrunc p => p != final
    | FSOp.writeChunk p _ => p != final
    | _ => true)

/-- Content lookup in an association-list filesystem state. -/
def getF (fs : List (String × String)) (p : String) : Option String :=
  (fs.find? (fun q => q.1 == p)).map (fun q => q.2)

/-- One filesystem operation applied to a state. -/
def stepFS (fs : List (String × String)) (op : FSOp) : List (String × String) :=
  match op with
  | FSOp.writeModel p => (p, "keras-model-bytes") :: fs
  | FSOp.openTrunc p => (p, "") :: fs
  | FSOp.writeChunk p d => (p, (getF fs p).getD "" ++ d) :: fs
  | FSOp.closeFile _ => fs
  | FSOp.renameFile s d => (d, (getF fs s).getD "") :: fs

/-- The content a reader observes at `p` after a prefix of operations has
run against an initially empty filesystem. -/
def fileAfter (ops : List FSOp) (p : String) : Option String :=
  getF (ops.foldl stepFS []) p

/-! ## Mobile format converter (convert_to_coreml.py) -/

/-- The input feature configured on the converted bundle: an image tensor
with explicit normalization, or the generic numeric input. -/
inductive InputFeature where
  | image (name : String) (shape : List Nat) (scale : ℚ) (bias : List ℚ)
  | generic
deriving DecidableEq

/-- The converted bundle: input feature, classifier labels, descriptive
metadata fields (convert_to_coreml.py lines 60-94). -/
structure ConvertedBundle where
  inputFeature : InputFeature
  classifierLabels : List String
  short_description : String
  author : String
  license : String
  version : String
  soil_types_meta : List String
  input_shape_meta : List Nat
deriving DecidableEq

/-- The converter's branch condition (convert_to_coreml.py line 56):
`len(input_shape) == 4 and input_shape[1] >= 224`. The shape is the Keras
`model.input_shape` tuple `(batch, height, width, channels)`; the batch entry
(index 0) is never inspected. -/
def usesImageBranch (input_shape : List Nat) : Bool :=
  input_shape.length == 4 && decide (224 ≤ input_shape.getD 1 0)

/-- The claim's wording of the image condition: 4-dimensional with minimum
spatial dimension at least 224. (Spec-side definition, for comparison with
`usesImageBranch`.) -/
def specImageInput (input_shape : List Nat) : Bool :=
  input_shape.length == 4 &&
    decide (224 ≤ min (input_shape.getD 1 0) (input_shape.getD 2 0))

/-- convert_to_coreml.py lines 47-94: resolve the model's input shape, pick
the image or generic input configuration, attach the classifier labels, and
stamp the descriptive metadata. The image branch uses
`image_size = (input_shape[2], input_shape[1])` plus the channel count,
`scale=1/255.0` and `bias=[0, 0, 0]`. -/
def buildBundle (input_shape : List Nat) (class_labels : List String) : ConvertedBundle :=
  if usesImageBranch input_shape then
    { inputFeature := InputFeature.image "input"
        [input_shape.getD 2 0, input_shape.getD 1 0, input_shape.getD 3 0]
        (1 / 255) [0, 0, 0]
      classifierLabels := class_labels
      short_description := "Soil type classification model for SoilVision iOS app"
      author := "SoilVision Team"
      license := "MIT"
      version := "1.0.0"
      soil_types_meta := class_labels
      input_shape_meta := input_shape }
  else
    { inputFeature := InputFeature.generic
      classifierLabels := class_labels
      short_description := "Soil type classification model for SoilVision iOS app"
      author := "SoilVision Team"
      license := "MIT"
      version := "1.0.0"
      soil_types_meta := class_labels
      input_shape_meta := input_shape }

/-- Is the configured input feature an image tensor? -/
def isImageInput (b : ConvertedBundle) : Bool :=
  match b.inputFeature with
  | InputFeature.image _ _ _ _ => true
  | InputFeature.generic => false

/-- convert_to_coreml.py lines 34-35: the default category list used when no
`class_labels` argument is supplied. -/
def default_class_labels : List String :=
  ["clay", "loam", "sandy", "silt", "peat", "chalk"]

/-- `if class_labels is None: class_labels = [...]`. -/
def resolve_class_labels (class_labels : Option (List String)) : List String :=
  class_labels.getD default_class_labels

/-- convert_to_coreml.py lines 185-187: the argparse default for
`--class_labels` in the standalone converter's entry point. -/
def argparse_default_class_labels : List String :=
  ["clay", "loam", "sandy", "silt", "peat", "chalk"]

/-- Outcome of the post-conversion self-test (convert_to_coreml.py lines
113-144): its body is wrapped in try/except, so a failure is only logged. -/
inductive SelfTestOutcome where
  | passed
  | failed (msg : String)

/-- The log lines `test_coreml_model` emits; it returns nothing and lets no
exception escape. -/
def test_coreml_model_log (st : SelfTestOutcome) : List String :=
  match st with
  | SelfTestOutcome.passed => ["CoreML model test completed successfully"]
  | SelfTestOutcome.failed m => ["Error testing CoreML model: " ++ m]

/-- convert_to_coreml.py lines 21-111 (standalone converter): on any
exception inside the try block the function prints the error and returns
`None`; on success it builds the bundle, runs the self-test (whose outcome
cannot change the result), and returns the output path's bundle. -/
def standalone_convert_to_coreml (input_shape : List Nat)
    (class_labels : Option (List String)) (convertOk : Bool)
    (st : SelfTestOutcome) : Option ConvertedBundle × List String :=
  if convertOk then
    (some (buildBundle input_shape (resolve_class_labels class_labels)),
     test_coreml_model_log st)
  else
    (none, ["Error converting model"])

/-! ## Trainer-side conversion step (train_model.py lines 377-419, 455-468) -/

/-- Possible outcomes of the body of the trainer's `convert_to_coreml` try
block: success (a bundle is saved), a missing `coremltools` import, an
exception before the bundle save, or an exception during the bundle save
(leaving a half-written bundle file). -/
inductive ConvOutcome where
  | ok (bundle : String)
  | importError
  | raisedBeforeSave (msg : String)
  | raisedDuringSave (halfBundle : String) (msg : String)

/-- The artifacts on disk after training: the persisted model file, the
metadata record, and (possibly) the converted bundle. -/
structure Artifacts where
  modelFile : Option String
  metadataFile : Option String
  coremlFile : Option String

/-- train_model.py lines 377-419: the whole body is wrapped in try/except;
`ImportError` and every other exception are caught, a message is printed and
the method returns `False`. The body only ever writes the bundle path; the
persisted model file is opened read-only by `load_model` and the metadata
file is not touched. -/
def trainer_convert_to_coreml (o : ConvOutcome) (a : Artifacts) : Bool × Artifacts :=
  match o with
  | ConvOutcome.ok b => (true, { a with coremlFile := some b })
  | ConvOutcome.importError => (false, a)
  | ConvOutcome.raisedBeforeSave _ => (false, a)
  | ConvOutcome.raisedDuringSave hb _ => (false, { a with coremlFile := some hb })

/-- Did the conversion step succeed? -/
def convSucceeded (o : ConvOutcome) : Bool :=
  match o with
  | ConvOutcome.ok _ => true
  | _ => false

/-- train_model.py lines 462-468: after `save_model_and_metadata`, `main`
calls `trainer.convert_to_coreml()`, discards its Bool result, and prints
the completion message. Because the conversion step returns instead of
raising, the surrounding try/except in `main` is never entered for it and
the run completes with the post-conversion artifacts. -/
def main_after_persist (o : ConvOutcome) (a : Artifacts) : Except String Artifacts :=
  Except.ok (trainer_convert_to_coreml o a).2

/-! ## Counting lemmas for the confusion matrix -/

theorem sum_range_beq (m c : Nat) (h : c < m) :
    (∑ j in Finset.range m, if c == j then (1 : Nat) else 0) = 1 := by
  have h1 : ∀ j, (if c == j then (1 : Nat) else 0) = if c = j then 1 else 0 := by
    intro j
    by_cases hj : c = j <;> simp [hj]
  rw [Finset.sum_congr rfl (fun j _ => h1 j),
    Finset.sum_ite_eq (Finset.range m) c (fun _ => (1 : Nat))]
  simp [Finset.mem_range.mpr h]

theorem row_split (m i : Nat) (l : List (Nat × Nat)) (h : ∀ p ∈ l, p.2 < m) :
    (∑ j in Finset.range m, l.countP (fun p => p.1 == i && p.2 == j)) =
      l.countP (fun p => p.1 == i) := by
  induction l with
  | nil => simp
  | cons a l ih =>
    have ha : a.2 < m := h a (List.mem_cons_self a l)
    have hl : ∀ p ∈ l, p.2 < m := fun p hp => h p (List.mem_cons_of_mem a hp)
    simp only [List.countP_cons]
    rw [Finset.sum_add_distrib, ih hl]
    congr 1
    by_cases h1 : (a.1 == i) = true
    · simp only [h1, Bool.true_and, if_true]
      exact sum_range_beq m a.2 ha
    · simp [h1]

theorem diag_split (m : Nat) (l : List (Nat × Nat)) (h : ∀ p ∈ l, p.1 < m) :
    (∑ i in Finset.range m, l.countP (fun p => p.1 == i && p.2 == i)) =
      l.countP (fun p => p.1 == p.2) := by
  induction l with
  | nil => simp
  | cons a l ih =>
    have ha : a.1 < m := h a (List.mem_cons_self a l)
    have hl : ∀ p ∈ l, p.1 < m := fun p hp => h p (List.mem_cons_of_mem a hp)
    simp only [List.countP_cons]
    rw [Finset.sum_add_distrib, ih hl]
    congr 1
    by_cases he : (a.1 == a.2) = true
    · have he' : a.1 = a.2 := by simpa using he
      rw [← he']
      simp only [Bool.and_self, beq_self_eq_true, if_true]
      exact sum_range_beq m a.1 ha
    · have hne : a.1 ≠ a.2 := by simpa using he
      have hz : ∀ j ∈ Finset.range m,
          (if (a.1 == j && a.2 == j) = true then (1 : Nat) else 0) = 0 := by
        intro j _
        by_cases h1 : a.1 = j
        · subst h1
          have h2 : (a.2 == a.1) = false := beq_eq_false_iff_ne.mpr (Ne.symm hne)
          simp [h2]
        · have h2 : (a.1 == j) = false := by simpa using h1
          simp [h2]
      rw [Finset.sum_eq_zero hz]
      simp [he]

theorem fst_split (m : Nat) (l : List (Nat × Nat)) (h : ∀ p ∈ l, p.1 < m) :
    (∑ i in Finset.range m, l.countP (fun p => p.1 == i)) = l.length := by
  induction l with
  | nil => simp
  | cons a l ih =>
    have ha : a.1 < m := h a (List.mem_cons_self a l)
    have hl : ∀ p ∈ l, p.1 < m := fun p hp => h p (List.mem_cons_of_mem a hp)
    simp only [List.countP_cons]
    rw [Finset.sum_add_distrib, ih hl, sum_range_beq m a.1 ha]
    simp

theorem countP_zip_left (q : Nat → Bool) (xs : List Nat) :
    ∀ ys : List Nat, xs.length ≤ ys.length →
      (xs.zip ys).countP (fun p => q p.1) = xs.countP q := by
  induction xs with
  | nil => intro ys _; simp
  | cons x xs ih =>
    intro ys h
    cases ys with
    | nil => simp at h
    | cons y ys =>
      have h' : xs.length ≤ ys.length := by simpa using h
      simp [List.countP_cons, ih ys h']

theorem evalTrues_length_le (batch : Nat) (v p : List Nat) :
    (evalTrues batch v p).length ≤ (evalPreds batch v p).length := by
  unfold evalTrues
  rw [List.length_take]
  exact Nat.min_le_left _ _

theorem evalPairs_length (batch : Nat) (v p : List Nat) :
    (evalPairs batch v p).length = (evalTrues batch v p).length := by
  unfold evalPairs
  rw [List.length_zip]
  exact Nat.min_eq_left (evalTrues_length_le batch v p)

theorem evalPairs_fst_lt (batch : Nat) (v p : List Nat) (m : Nat)
    (ht : ∀ c ∈ v, c < m) : ∀ q ∈ evalPairs batch v p, q.1 < m := by
  intro q hq
  obtain ⟨a, b⟩ := q
  have h1 := (List.of_mem_zip hq).1
  exact ht a (List.mem_of_mem_take h1)

theorem evalPairs_snd_lt (batch : Nat) (v p : List Nat) (m : Nat)
    (hp : ∀ c ∈ p, c < m) : ∀ q ∈ evalPairs batch v p, q.2 < m := by
  intro q hq
  obtain ⟨a, b⟩ := q
  have h1 := (List.of_mem_zip hq).2
  exact hp b (List.mem_of_mem_take h1)

/-- Lookup at the key just pushed onto the association list. -/
theorem getF_cons_self (fs : List (String × String)) (p v : String) :
    getF ((p, v) :: fs) p = some v := by
  unfold getF
  rw [List.find?_cons_of_pos _ (by simp)]
  rfl

/-- Appending to the empty string is the identity. -/
theorem string_empty_append (s : String) : "" ++ s = s := rfl

/-! ## Claim theorems -/

/-- C3: for every dataset root, `validate_dataset` fails with
`DatasetNotFound` when the root does not exist; whenever it fails with
`MissingCategories m`, the reported list `m` names exactly the absent
categories (no more, no fewer); it does fail that way whenever the root
exists and some category subdirectory is absent; and it succeeds when the
root and all six category subdirectories exist. -/
theorem validate_dataset_cases (d : Dataset) :
    (d.rootExists = false →
      validate_dataset d = Except.error (ValidateError.DatasetNotFound d.dir)) ∧
    (∀ missing,
      validate_dataset d = Except.error (ValidateError.MissingCategories missing) →
      ∀ t, (t ∈ missing ↔ (t ∈ SOIL_TYPES ∧ d.subdirs.contains t = false))) ∧
    (d.rootExists = true → (∃ t, t ∈ SOIL_TYPES ∧ d.subdirs.contains t = false) →
      validate_dataset d
        = Except.error (ValidateError.MissingCategories (missingCategories d))) ∧
    ((d.rootExists = true ∧ ∀ t, t ∈ SOIL_TYPES → d.subdirs.contains t = true) →
      validate_dataset d = Except.ok (validationReport d, true)) := by
  refine ⟨validate_root_missing d, ?_, ?_, fun h => validate_ok_of_complete d h.1 h.2⟩
  · intro missing hmiss t
    rw [validate_missing_eq d missing hmiss]
    exact mem_missingCategories d t
  · rintro h1 ⟨t, ht, hc⟩
    exact validate_fails_of_missing d h1 t ht hc

/-- Witness for the C3 theorem: a root that exists but lacks only the `peat`
subdirectory fails with `MissingCategories` naming exactly `peat`. -/
theorem validate_dataset_cases_witness :
    validate_dataset sampleMissingPeat
      = Except.error (ValidateError.MissingCategories ["peat"]) ∧
    ("peat" ∈ (["peat"] : List String) ↔
      ("peat" ∈ SOIL_TYPES ∧ sampleMissingPeat.subdirs.contains "peat" = false)) := by
  constructor
  · rfl
  · exact (validate_dataset_cases sampleMissingPeat).2.1 ["peat"] rfl "peat"

/-- C10: `validate_dataset` succeeds for every dataset whose root and six
category subdirectories exist, whatever files the subdirectories hold — in
particular also with zero recognized image files everywhere. -/
theorem validate_dataset_ignores_image_counts (d : Dataset)
    (hroot : d.rootExists = true)
    (hall : ∀ t, t ∈ SOIL_TYPES → d.subdirs.contains t = true) :
    validate_dataset d = Except.ok (validationReport d, true) :=
  validate_ok_of_complete d hroot hall

/-- Witness for the C10 theorem: an entirely image-less dataset passes
validation, with every per-class count zero. -/
theorem validate_dataset_ignores_image_counts_witness :
    validate_dataset emptyImageDataset
      = Except.ok (validationReport emptyImageDataset, true) ∧
    validationReport emptyImageDataset =
      [("clay", 0), ("loam", 0), ("sandy", 0), ("silt", 0), ("peat", 0),
       ("chalk", 0)] := by
  refine ⟨validate_dataset_ignores_image_counts emptyImageDataset rfl (by decide), by rfl⟩

/-- C1 (code evaluation): the data pipeline contains no label-order check —
no run of `create_data_generators` ever fails with `LabelOrderMismatch` —
while the index-to-label mapping `flow_from_directory` resolves for the six
category subdirectories is the alphabetical one, which differs from
`SOIL_TYPES`. -/
theorem no_label_order_mismatch_check (d : Dataset) (validation_split : ℚ) :
    isLabelOrderMismatchResult (create_data_generators d validation_split) = false ∧
    resolvedClassOrder SOIL_TYPES = ["chalk", "clay", "loam", "peat", "sandy", "silt"] ∧
    (resolvedClassOrder SOIL_TYPES == SOIL_TYPES) = false :=
  ⟨rfl, by decide, by decide⟩

/-- C6 (code evaluation): every call of `create_data_generators` raises
`TypeError` on the `contrast_range` keyword — `ImageDataGenerator` does not
accept it — so constructing the training generator with the contrast
transform does not succeed. -/
theorem create_data_generators_raises_type_error (d : Dataset) (validation_split : ℚ) :
    create_data_generators d validation_split
      = Except.error (PyError.typeError "contrast_range") := rfl

/-- C9: `train_model` computes the per-epoch training batch count and the
validation step count by the same formula: the stream's sample count divided
by the batch size rounded down, but never less than 1. -/
theorem train_model_steps_formula (trainGen valGen : FlowGenerator) (batch : Nat) :
    (train_model_steps trainGen valGen batch).1
      = max 1 (Nat.floor ((trainGen.samples : ℚ) / (batch : ℚ))) ∧
    (train_model_steps trainGen valGen batch).2
      = max 1 (Nat.floor ((valGen.samples : ℚ) / (batch : ℚ))) := by
  constructor <;> simp [train_model_steps, Nat.floor_div_eq_div]

/-- C5 counterexample: with the default batch size 32 and a validation
stream of 33 samples, only 32 are evaluated; the confusion-matrix row for
class 1 sums to 0 although the validation stream holds one class-1 sample. -/
theorem evaluate_row_sum_counterexample :
    rowSum (evaluate_model 32 truncTrue truncPred).cm 1 = 0 ∧
    truncTrue.count 1 = 1 ∧
    rowSum (evaluate_model 32 truncTrue truncPred).cm 1 ≠ truncTrue.count 1 :=
  ⟨by decide, by decide, by decide⟩

/-- C5 (amended): over the evaluated prefix of the validation stream (the
first `min(samples, max(1, samples // batch) * batch)` samples), each
confusion-matrix row sum equals the number of evaluated samples whose true
label is that row's category, and the matrix's trace divided by the sum of
all its entries equals the reported accuracy scalar. -/
theorem evaluate_model_matrix_props (batch : Nat) (valClasses predAll : List Nat)
    (_hlen : predAll.length = valClasses.length)
    (ht : ∀ c ∈ valClasses, c < NUM_CLASSES)
    (hp : ∀ c ∈ predAll, c < NUM_CLASSES) :
    (∀ i, rowSum (evaluate_model batch valClasses predAll).cm i
        = (evaluate_model batch valClasses predAll).evaluatedTrue.count i) ∧
    ((cmTrace (evaluate_model batch valClasses predAll).cm : ℚ)
        / (cmTotal (evaluate_model batch valClasses predAll).cm : ℚ)
      = (evaluate_model batch valClasses predAll).accuracy) := by
  have hfst := evalPairs_fst_lt batch valClasses predAll NUM_CLASSES ht
  have hsnd := evalPairs_snd_lt batch valClasses predAll NUM_CLASSES hp
  have hrow : ∀ i, rowSum (evaluate_model batch valClasses predAll).cm i
      = (evalTrues batch valClasses predAll).count i := by
    intro i
    have h1 : rowSum (evaluate_model batch valClasses predAll).cm i
        = (evalPairs batch valClasses predAll).countP (fun p => p.1 == i) :=
      row_split NUM_CLASSES i _ hsnd
    have h2 := countP_zip_left (fun x => x == i) (evalTrues batch valClasses predAll)
      (evalPreds batch valClasses predAll) (evalTrues_length_le batch valClasses predAll)
    rw [h1, List.count_eq_countP]
    exact h2
  refine ⟨fun i => hrow i, ?_⟩
  have htrace : cmTrace (evaluate_model batch valClasses predAll).cm
      = (evalPairs batch valClasses predAll).countP (fun p => p.1 == p.2) :=
    diag_split NUM_CLASSES _ hfst
  have htotal : cmTotal (evaluate_model batch valClasses predAll).cm
      = (evalTrues batch valClasses predAll).length := by
    have h3 : cmTotal (evaluate_model batch valClasses predAll).cm
        = ∑ i in Finset.range NUM_CLASSES,
            (evalPairs batch valClasses predAll).countP (fun p => p.1 == i) :=
      Finset.sum_congr rfl (fun i _ => row_split NUM_CLASSES i _ hsnd)
    rw [h3, fst_split NUM_CLASSES _ hfst, evalPairs_length]
  rw [htrace, htotal]
  rfl

/-- Witness for the C5 theorem at batch size 2 with three validation samples
(one left unevaluated) and concrete predictions. -/
theorem evaluate_model_matrix_props_witness :
    rowSum (evaluate_model 2 [0, 1, 1] [0, 1, 0]).cm 1
      = (evaluate_model 2 [0, 1, 1] [0, 1, 0]).evaluatedTrue.count 1 ∧
    ((cmTrace (evaluate_model 2 [0, 1, 1] [0, 1, 0]).cm : ℚ)
        / (cmTotal (evaluate_model 2 [0, 1, 1] [0, 1, 0]).cm : ℚ)
      = (evaluate_model 2 [0, 1, 1] [0, 1, 0]).accuracy) := by
  have h := evaluate_model_matrix_props 2 [0, 1, 1] [0, 1, 0]
    (by decide) (by decide) (by decide)
  exact ⟨h.1 1, h.2⟩

/-- C4 counterexample: for the declared input shape (batch, 300, 100, 3)
the minimum spatial dimension is 100 < 224, so under the claim the generic
numeric input should be selected, but the converter configures the image
input because it only tests `input_shape[1]`. -/
theorem convert_input_min_dim_counterexample :
    isImageInput (buildBundle [1, 300, 100, 3] default_class_labels) = true ∧
    specImageInput [1, 300, 100, 3] = false :=
  ⟨rfl, rfl⟩

/-- C4 (amended): the converter selects the image input configuration
(image name `input`, width-height-channel shape, scale 1/255, zero bias)
exactly when the declared input shape is 4-dimensional with its second
entry — the height, `input_shape[1]` — at least 224, and the generic
numeric input otherwise; the classifier header carries the supplied ordered
labels in both cases. -/
theorem convert_input_selection (input_shape : List Nat) (class_labels : List String) :
    (buildBundle input_shape class_labels).inputFeature
      = (if usesImageBranch input_shape then
          InputFeature.image "input"
            [input_shape.getD 2 0, input_shape.getD 1 0, input_shape.getD 3 0]
            (1 / 255) [0, 0, 0]
        else InputFeature.generic) ∧
    (buildBundle input_shape class_labels).classifierLabels = class_labels ∧
    usesImageBranch input_shape
      = (input_shape.length == 4 && decide (224 ≤ input_shape.getD 1 0)) := by
  refine ⟨?_, ?_, rfl⟩ <;>
    by_cases h : usesImageBranch input_shape <;> simp [buildBundle, h]

/-- C8: the converted bundle's classifier label list and its `soil_types`
metadata both equal the category list supplied at conversion time, in the
same order, for every supplied list; with no list supplied the default is
the six-category reference list, both in the converter function and in the
standalone entry point's argparse default. -/
theorem converted_labels_match_supplied (input_shape : List Nat) (labels : List String) :
    (buildBundle input_shape labels).classifierLabels = labels ∧
    (buildBundle input_shape labels).soil_types_meta = labels ∧
    resolve_class_labels (some labels) = labels ∧
    resolve_class_labels none = ["clay", "loam", "sandy", "silt", "peat", "chalk"] ∧
    argparse_default_class_labels
      = ["clay", "loam", "sandy", "silt", "peat", "chalk"] := by
  refine ⟨?_, ?_, rfl, rfl, rfl⟩ <;>
    by_cases h : usesImageBranch input_shape <;> simp [buildBundle, h]

/-- C7: a failing conversion is isolated: the trainer's conversion step
returns `False` instead of raising, leaves the persisted model and metadata
files untouched in every outcome, `main` still completes after it; and in
the standalone converter a conversion failure yields `None` while a failing
post-conversion self-test does not change a successful conversion's
result. -/
theorem conversion_failure_isolated (o : ConvOutcome) (a : Artifacts)
    (input_shape : List Nat) (labels : Option (List String)) (st : SelfTestOutcome) :
    (trainer_convert_to_coreml o a).2.modelFile = a.modelFile ∧
    (trainer_convert_to_coreml o a).2.metadataFile = a.metadataFile ∧
    (trainer_convert_to_coreml o a).1 = convSucceeded o ∧
    main_after_persist o a = Except.ok (trainer_convert_to_coreml o a).2 ∧
    (standalone_convert_to_coreml input_shape labels false st).1 = none ∧
    (standalone_convert_to_coreml input_shape labels true st).1
      = some (buildBundle input_shape (resolve_class_labels labels)) := by
  cases o <;>
    simp [trainer_convert_to_coreml, convSucceeded, main_after_persist,
      standalone_convert_to_coreml]

/-- C2 counterexample: at a concrete invocation the metadata file is not
produced by a write-then-rename: the trace opens and writes the final path
directly, and between the truncating open and the content write a reader at
the final path observes an empty file rather than the complete record. -/
theorem save_metadata_not_write_then_rename_cex :
    producedByRename (save_model_and_metadata_trace "./model_outputs" "record")
      "./model_outputs/model_metadata.json" = false ∧
    fileAfter ((save_model_and_metadata_trace "./model_outputs" "record").take 2)
      "./model_outputs/model_metadata.json" = some "" ∧
    fileAfter (save_model_and_metadata_trace "./model_outputs" "record")
      "./model_outputs/model_metadata.json" = some "record" :=
  ⟨rfl, by decide, by decide⟩

/-- C2 (amended): for every invocation, `save_model_and_metadata` writes the
metadata by a direct truncating write at its final path with no rename
step, so a reader at the final path can observe an incomplete (empty)
metadata file before the record content lands. -/
theorem save_metadata_direct_write (outdir metadataContent : String)
    (h : metadataContent ≠ "") :
    producedByRename (save_model_and_metadata_trace outdir metadataContent)
      (outdir ++ "/" ++ metadataFileName) = false ∧
    fileAfter ((save_model_and_metadata_trace outdir metadataContent).take 2)
      (outdir ++ "/" ++ metadataFileName) = some "" ∧
    fileAfter (save_model_and_metadata_trace outdir metadataContent)
      (outdir ++ "/" ++ metadataFileName) = some metadataContent ∧
    (some "" : Option String) ≠ some metadataContent := by
  refine ⟨rfl, ?_, ?_, ?_⟩
  · simp [fileAfter, save_model_and_metadata_trace, stepFS, getF_cons_self]
  · simp [fileAfter, save_model_and_metadata_trace, stepFS, getF_cons_self,
      string_empty_append]
  · intro heq
    exact h (Option.some.inj heq).symm

/-- Witness for the C2 theorem at a concrete output directory and record. -/
theorem save_metadata_direct_write_witness :
    producedByRename (save_model_and_metadata_trace "./outputs" "record-content")
      ("./outputs" ++ "/" ++ metadataFileName) = false ∧
    fileAfter ((save_model_and_metadata_trace "./outputs" "record-content").take 2)
      ("./outputs" ++ "/" ++ metadataFileName) = some "" ∧
    fileAfter (save_model_and_metadata_trace "./outputs" "record-content")
      ("./outputs" ++ "/" ++ metadataFileName) = some "record-content" ∧
    (some "" : Option String) ≠ some "record-content" :=
  save_metadata_direct_write "./outputs" "record-content" (by decide)

end SoilVision
